import Mathlib

/-!
Shallow embedding of `src/lib/rn-primitives/context-menu.tsx`: the context-menu
session state machine (open flag, captured press position, measured content
layout), the trigger / overlay / item / submenu event handlers, the mount gates
of the portal, content, sub-content and item-indicator components, and the
context hooks. The `Root` component is controlled: `onOpenChange v` is embedded
as the state update `open := v`, the standard wiring
`const [open, setOpen] = useState(false); <Root open={open} onOpenChange={setOpen}>`.
Coordinates are embedded as rationals (JS numbers, exact arithmetic).
-/

/-- `LayoutPosition` from `hooks/useRelativePosition`, the shape stored by
`setPressPosition` (fields used in `context-menu.tsx`: `pageX`, `pageY`,
`width`, `height`). -/
structure LayoutPosition where
  pageX : ℚ
  pageY : ℚ
  width : ℚ
  height : ℚ
deriving DecidableEq, Repr

/-- React Native `LayoutRectangle` (`event.nativeEvent.layout`). -/
structure LayoutRectangle where
  x : ℚ
  y : ℚ
  width : ℚ
  height : ℚ
deriving DecidableEq, Repr

/-- The coordinates read off a `GestureResponderEvent` in `Trigger.onLongPress`
(`ev.nativeEvent.pageX`, `ev.nativeEvent.pageY`). -/
structure TouchPoint where
  pageX : ℚ
  pageY : ℚ
deriving DecidableEq, Repr

/-- One menu session's state: the `open` prop of the controlled `Root` plus the
`pressPosition` and `contentLayout` React states held in `Root`.
(`open` is a Lean keyword, embedded as `isOpen`.) -/
structure SessionState where
  isOpen : Bool
  pressPosition : Option LayoutPosition
  contentLayout : Option LayoutRectangle
deriving DecidableEq, Repr

/-- The state of a freshly mounted `Root` (`useState(null)` twice, closed). -/
def initialState : SessionState :=
  { isOpen := false, pressPosition := none, contentLayout := none }

/-- `Root.close` (context-menu.tsx lines 51-55):
`setPressPosition(null); setContentLayout(null); onOpenChange(false)`. -/
def Root.close (_st : SessionState) : SessionState :=
  { isOpen := false, pressPosition := none, contentLayout := none }

/-- `Trigger.onLongPress` (lines 106-117): if disabled, return; otherwise
`setPressPosition({width: 0, pageX: ev.nativeEvent.pageX, pageY: ev.nativeEvent.pageY, height: 0})`
then `onOpenChange(!open)`. -/
def Trigger.onLongPress (disabled : Bool) (ev : TouchPoint) (st : SessionState) :
    SessionState :=
  if disabled then st
  else
    { st with
      pressPosition :=
        some { pageX := ev.pageX, pageY := ev.pageY, width := 0, height := 0 }
      isOpen := !st.isOpen }

/-- `Trigger.onAccessibilityAction` (lines 119-132): if disabled, return; if the
action name is `'longpress'`, set the press position to the origin rectangle
`{width: 0, pageX: 0, pageY: 0, height: 0}` and `onOpenChange(!open)`. -/
def Trigger.onAccessibilityAction (disabled : Bool) (actionName : String)
    (st : SessionState) : SessionState :=
  if disabled then st
  else if actionName = "longpress" then
    { st with
      pressPosition := some { pageX := 0, pageY := 0, width := 0, height := 0 }
      isOpen := !st.isOpen }
  else st

/-- `Overlay.onPress` (lines 208-213): `if (closeOnPress) close()`. -/
def Overlay.onPress (closeOnPress : Bool) (st : SessionState) : SessionState :=
  if closeOnPress then Root.close st else st

/-- Session-state effect of `Item.onPress` (lines 353-359):
`if (closeOnPress) close(); onSelect?.(ev); onPressProp?.(ev)` — the callbacks
do not touch the session state. -/
def Item.onPressState (closeOnPress : Bool) (st : SessionState) : SessionState :=
  if closeOnPress then Root.close st else st

/-- The session state at the moment `Item.onPress` invokes `onSelect`: in the
source, `close()` has already run when `closeOnPress` is set. -/
def Item.stateSeenByOnSelect (closeOnPress : Bool) (st : SessionState) :
    SessionState :=
  Item.onPressState closeOnPress st

/-- Events emitted by `Item.onPress`, in source order (lines 353-359). -/
inductive ItemEvent where
  | closeMenu
  | select
  | pressProp
deriving DecidableEq, Repr

/-- The call trace of `Item.onPress`: close first (when `closeOnPress`), then
`onSelect?.(ev)`, then `onPress?.(ev)`. -/
def Item.onPressTrace (closeOnPress hasOnSelect hasOnPressProp : Bool) :
    List ItemEvent :=
  (if closeOnPress then [ItemEvent.closeMenu] else []) ++
    (if hasOnSelect then [ItemEvent.select] else []) ++
      (if hasOnPressProp then [ItemEvent.pressProp] else [])

/-- `CheckboxItem.onPress` (lines 432-439): `onCheckedChange(!checked)`, then
`if (closeOnPress) close()`, then `onSelect?.(ev)`. Returns the session state
after the press together with the value passed to `onCheckedChange`. -/
def CheckboxItem.onPress (closeOnPress checked : Bool) (st : SessionState) :
    SessionState × Bool :=
  ((if closeOnPress then Root.close st else st), !checked)

/-- The session state at the moment `CheckboxItem.onPress` invokes `onSelect`
(after the conditional `close()`). -/
def CheckboxItem.stateSeenByOnSelect (closeOnPress checked : Bool)
    (st : SessionState) : SessionState :=
  (CheckboxItem.onPress closeOnPress checked st).1

/-- `Content.onLayout` (lines 304-307): `setContentLayout(event.nativeEvent.layout)`
— unconditional in the handler itself. -/
def Content.onLayout (rect : LayoutRectangle) (st : SessionState) : SessionState :=
  { st with contentLayout := some rect }

/-- `Content`'s render gate (lines 309-313): `if (!forceMount) { if (!open) return null; }` —
the content component is mounted iff `forceMount || open`. -/
def Content.mounts (forceMount isOpen : Bool) : Bool :=
  if !forceMount then (if !isOpen then false else true) else true

/-- Delivery of a layout-measurement event to the `Content` component: the
`onLayout` handler only exists while `Content` is mounted (rendered non-null),
so a measurement is recorded iff `Content.mounts forceMount st.isOpen`. -/
def deliverContentLayout (forceMount : Bool) (rect : LayoutRectangle)
    (st : SessionState) : SessionState :=
  if Content.mounts forceMount st.isOpen then Content.onLayout rect st else st

/-- `Content`'s unmount cleanup (lines 287-290): `setContentLayout(null)` (and
release of the back-handler subscription, which carries no session state). -/
def Content.unmountCleanup (st : SessionState) : SessionState :=
  { st with contentLayout := none }

/-- `Content`'s back-handler callback (lines 279-285): `close()` and the event
is consumed (`return true`). -/
def Content.onHardwareBackPress (st : SessionState) : SessionState :=
  Root.close st

/-- `Portal`'s render gate (lines 168-176): `if (!value.pressPosition) return null;`
first, then `if (!forceMount) { if (!value.open) return null; }`. -/
def Portal.mounts (forceMount : Bool) (pressPosition : Option LayoutPosition)
    (isOpen : Bool) : Bool :=
  match pressPosition with
  | none => false
  | some _ => if !forceMount then (if !isOpen then false else true) else true

/-- `Overlay`'s render gate (lines 215-219). -/
def Overlay.mounts (forceMount isOpen : Bool) : Bool :=
  if !forceMount then (if !isOpen then false else true) else true

/-- `SubContent`'s render gate (lines 688-692). -/
def SubContent.mounts (forceMount isOpen : Bool) : Bool :=
  if !forceMount then (if !isOpen then false else true) else true

/-- `ItemIndicator`'s render gate (lines 569-576): without `forceMount`,
`if (itemValue == null && !checked) return null; if (value !== itemValue) return null;`.
`itemValue` is `none` outside a `RadioItem` (the `RadioItemContext` default),
`checked` is false (JS `undefined`) outside a `CheckboxItem`, `value` is `none`
outside a `RadioGroup`. -/
def ItemIndicator.mounts (forceMount : Bool) (itemValue : Option String)
    (checked : Bool) (value : Option String) : Bool :=
  if !forceMount then
    if itemValue = none ∧ !checked then false
    else if value ≠ itemValue then false
    else true
  else true

/-- Submenu session state (`SubContext`: controlled `open` plus `onOpenChange`). -/
structure SubState where
  isOpen : Bool
deriving DecidableEq, Repr

/-- `SubTrigger.onPress` (lines 655-658): `onOpenChange(!open)`. -/
def SubTrigger.onPress (st : SubState) : SubState :=
  { isOpen := !st.isOpen }

/-! ### React context lookup and the misuse guards

`ContextMenuContext`, `FormItemContext`, `SubContext` and `RadioItemContext`
are all created as `React.createContext({} as T)`: the default value is an
empty object literal cast to the context type. `React.useContext` returns the
nearest provider's value, or that default when no provider is above. The
guards test JS truthiness (`if (!context) throw ...`); every JS object —
including the empty default object — is truthy. -/

/-- A value a React context variable can hold at lookup time: JS `undefined`,
JS `null`, the untyped empty-object default `{} as T`, or a provider's value. -/
inductive JSValue (α : Type) where
  | undefinedV
  | nullV
  | emptyObject
  | obj (a : α)
deriving DecidableEq, Repr

/-- JS truthiness: `undefined` and `null` are falsy; every object (including
the empty object `{}`) is truthy. -/
def JSValue.jsTruthy : JSValue α → Bool
  | .undefinedV => false
  | .nullV => false
  | .emptyObject => true
  | .obj _ => true

/-- `React.useContext`: the nearest provider's value when one is above,
otherwise the `createContext` default. -/
def readContext (default_ : JSValue α) : Option α → JSValue α
  | some a => .obj a
  | none => default_

/-- The data fields of the `RootContext` value provided by `Root` (the callback
fields carry no lookup-relevant data). -/
structure RootContextValue where
  isOpen : Bool
  pressPosition : Option LayoutPosition
  contentLayout : Option LayoutRectangle
  nativeID : String
deriving DecidableEq, Repr

/-- `const ContextMenuContext = React.createContext({} as RootContext)`
(line 39): the default is the truthy empty object. -/
def ContextMenuContext.defaultValue : JSValue RootContextValue :=
  JSValue.emptyObject

/-- `useContextMenuContext` (lines 78-86): read the context, throw when the
value is falsy, otherwise return it. -/
def useContextMenuContext (providerValue : Option RootContextValue) :
    Except String (JSValue RootContextValue) :=
  let context := readContext ContextMenuContext.defaultValue providerValue
  if context.jsTruthy then Except.ok context
  else Except.error
    "ContextMenu compound components cannot be rendered outside the ContextMenu component"

/-- The `FormItemContext` value type (line 398-403): either a checkbox
context `{checked}` or a radio-group context `{value, onValueChange}`. -/
inductive FormItemContextValue where
  | checkbox (checked : Bool)
  | radioGroup (value : Option String)
deriving DecidableEq, Repr

/-- `const FormItemContext = React.createContext({} as FormItemContext)`
(line 405): again a truthy empty-object default. -/
def FormItemContext.defaultValue : JSValue FormItemContextValue :=
  JSValue.emptyObject

/-- `useFormItemContext` (lines 462-470): read the context, throw when the
value is falsy, otherwise return it. -/
def useFormItemContext (providerValue : Option FormItemContextValue) :
    Except String (JSValue FormItemContextValue) :=
  let context := readContext FormItemContext.defaultValue providerValue
  if context.jsTruthy then Except.ok context
  else Except.error
    "CheckboxItem or RadioItem compound components cannot be rendered outside of a CheckboxItem or RadioItem component"

/-! ### The session as a transition system

All the operations the claims quantify over, folded over a single session's
state. Layout measurement is delivered through `deliverContentLayout` with the
default `forceMount = false` configuration of `Content`. -/

/-- One externally triggered operation on a session. -/
inductive Op where
  | longPress (disabled : Bool) (ev : TouchPoint)
  | accessibilityAct (disabled : Bool) (actionName : String)
  | overlayPress (closeOnPress : Bool)
  | itemPress (closeOnPress : Bool)
  | backPress
  | layoutMeasured (rect : LayoutRectangle)
  | contentUnmount
deriving DecidableEq, Repr

/-- The state transition each operation performs, read off the source handlers. -/
def step (st : SessionState) : Op → SessionState
  | .longPress d ev => Trigger.onLongPress d ev st
  | .accessibilityAct d name => Trigger.onAccessibilityAction d name st
  | .overlayPress c => Overlay.onPress c st
  | .itemPress c => Item.onPressState c st
  | .backPress => Content.onHardwareBackPress st
  | .layoutMeasured rect => deliverContentLayout false rect st
  | .contentUnmount => Content.unmountCleanup st

/-- Run a sequence of operations from a state. -/
def run (st : SessionState) : List Op → SessionState
  | [] => st
  | op :: ops => run (step st op) ops

/-- Whether an operation is an effective trigger activation: a non-disabled
long-press, or a non-disabled accessibility action named `'longpress'`. These
are exactly the operations that execute `onOpenChange(!open)`. -/
def Op.togglesOpen : Op → Bool
  | .longPress d _ => !d
  | .accessibilityAct d name => !d && (name = "longpress")
  | _ => false

/-- Every effective trigger activation in the sequence fires while the session
is closed at that moment. -/
def activationsClosed : SessionState → List Op → Bool
  | _, [] => true
  | st, op :: ops =>
    (!op.togglesOpen || !st.isOpen) && activationsClosed (step st op) ops

/-- The spec's session invariant: a closed session holds no press position and
no content layout. -/
def closedCleared (st : SessionState) : Prop :=
  st.isOpen = false → st.pressPosition = none ∧ st.contentLayout = none

instance (st : SessionState) : Decidable (closedCleared st) := by
  unfold closedCleared
  infer_instance

/-! ### Positioning engine -/

/-- Safe-area insets (`Insets` from `hooks/useRelativePosition`). -/
structure Insets where
  top : ℚ
  bottom : ℚ
  left : ℚ
  right : ℚ
deriving DecidableEq, Repr

/-- The measured size of the floating panel used by the positioning engine. -/
structure ContentSize where
  width : ℚ
  height : ℚ
deriving DecidableEq, Repr

/-- Which edge of the anchor the panel emanates from. -/
inductive Side where
  | top
  | bottom
deriving DecidableEq, Repr

/-- Cross-axis alignment of the panel relative to the anchor (`end` is a Lean
keyword, embedded as `end_`). -/
inductive Align where
  | start
  | center
  | end_
deriving DecidableEq, Repr

/-- The placement produced by the engine: resolved side, absolute `top` and
`left`, and the `maxWidth` bound. -/
structure Placement where
  side : Side
  top : ℚ
  left : ℚ
  maxWidth : ℚ
deriving DecidableEq, Repr

/-- Modelled from the spec: the primary-axis (vertical) candidate of the
positioning engine in the repository's `useRelativePosition` hook, whose source
file (`lib/rn-primitives/hooks/useRelativePosition`) is not among the provided
sources. Spec section 4.2 step 2: `"bottom"` gives
`anchor.y + anchor.height + sideOffset`; `"top"` gives
`anchor.y - contentLayout.height - sideOffset`. -/
def sideCandidate (side : Side) (anchor : LayoutPosition) (content : ContentSize)
    (sideOffset : ℚ) : ℚ :=
  match side with
  | .bottom => anchor.pageY + anchor.height + sideOffset
  | .top => anchor.pageY - content.height - sideOffset

/-- Modelled from the spec: the cross-axis (horizontal) candidate, section 4.2
step 3 of the spec (`start` / `center` / `end` formulas). -/
def alignCandidate (align : Align) (anchor : LayoutPosition)
    (content : ContentSize) (alignOffset : ℚ) : ℚ :=
  match align with
  | .start => anchor.pageX + alignOffset
  | .center =>
    anchor.pageX + anchor.width / 2 - content.width / 2 + alignOffset
  | .end_ => anchor.pageX + anchor.width - content.width + alignOffset

/-- Clamp `x` into `[lo, hi]`; when the range is empty (`hi < lo`) pin to `lo`,
the spec's "never clamp to a negative range". -/
def clampTo (lo hi x : ℚ) : ℚ :=
  if hi < lo then lo else max lo (min hi x)

/-- Modelled from the spec: the collision-avoiding placement computation of the
repository's `useRelativePosition` hook (its source file is not among the
provided sources), following spec section 4.2 steps 2-6: primary- and
cross-axis candidates, then — when `avoidCollisions` — an independent
horizontal clamp to `[insets.left, viewportWidth - insets.right - content.width]`
and the vertical flip rule (flip when the requested side overflows the opposite
inset edge and the flipped position stays inside; if both directions overflow,
keep the requested side clamped to the inset boundary), with
`maxWidth = viewportWidth - insets.left - insets.right` in every branch. -/
def computePlacement (anchor : LayoutPosition) (content : ContentSize)
    (side : Side) (align : Align) (sideOffset alignOffset : ℚ)
    (avoidCollisions : Bool) (insets : Insets)
    (viewportWidth viewportHeight : ℚ) : Placement :=
  let top0 := sideCandidate side anchor content sideOffset
  let left0 := alignCandidate align anchor content alignOffset
  let maxW := viewportWidth - insets.left - insets.right
  if !avoidCollisions then
    { side := side, top := top0, left := left0, maxWidth := maxW }
  else
    let left := clampTo insets.left (viewportWidth - insets.right - content.width) left0
    let vertical : Side × ℚ :=
      match side with
      | .bottom =>
        if viewportHeight - insets.bottom < top0 + content.height then
          let flipped := sideCandidate Side.top anchor content sideOffset
          if insets.top ≤ flipped then (Side.top, flipped)
          else (Side.bottom, viewportHeight - insets.bottom - content.height)
        else (Side.bottom, top0)
      | .top =>
        if top0 < insets.top then
          let flipped := sideCandidate Side.bottom anchor content sideOffset
          if flipped + content.height ≤ viewportHeight - insets.bottom then
            (Side.bottom, flipped)
          else (Side.top, insets.top)
        else (Side.top, top0)
    { side := vertical.1, top := vertical.2, left := left, maxWidth := maxW }

/-! ### Claims -/

/-- Claim C3 (code bug): the hooks are meant to fail fast outside their
providers, but `createContext({} as T)` makes the default a truthy empty
object, so the falsiness guard `if (!context) throw` can never fire: with no
provider above, both hooks return the empty default object instead of
raising. -/
theorem C3_contextGuardNeverFires :
    useContextMenuContext none = Except.ok JSValue.emptyObject ∧
      useFormItemContext none = Except.ok JSValue.emptyObject :=
  ⟨rfl, rfl⟩

/-- Claim C8 (confirmed): a submenu trigger press toggles the open flag, and
two presses with no intervening close restore the original session state. -/
theorem C8_subTriggerToggles (st : SubState) :
    (SubTrigger.onPress st).isOpen = !st.isOpen ∧
      SubTrigger.onPress (SubTrigger.onPress st) = st := by
  cases st
  simp [SubTrigger.onPress]

/-- Claim C9 (confirmed): on a non-disabled trigger, the accessibility action
named `'longpress'` sets the press position to the synthetic origin rectangle
`{pageX: 0, pageY: 0, width: 0, height: 0}` and toggles the open flag. -/
theorem C9_accessibilityActivation (st : SessionState) :
    Trigger.onAccessibilityAction false "longpress" st =
      { st with
        pressPosition := some { pageX := 0, pageY := 0, width := 0, height := 0 }
        isOpen := !st.isOpen } := by
  simp [Trigger.onAccessibilityAction]

/-- Claim C10 (confirmed): `close()` on an already fully closed session leaves
the session state unchanged. -/
theorem C10_closeIdempotent (st : SessionState) (h1 : st.isOpen = false)
    (h2 : st.pressPosition = none) (h3 : st.contentLayout = none) :
    Root.close st = st := by
  cases st
  simp_all [Root.close]

/-- Witness for claim C10 at the concrete initial (closed) session. -/
theorem C10_closeIdempotent_witness :
    initialState.isOpen = false ∧ initialState.pressPosition = none ∧
      initialState.contentLayout = none ∧
      Root.close initialState = initialState :=
  ⟨rfl, rfl, rfl, C10_closeIdempotent initialState rfl rfl rfl⟩

/-- Claim C2 (counterexample): with a force-mounted `Content` the component
stays mounted after close, so a layout measurement delivered to the closed
session is recorded — `contentLayout` does not remain null. -/
theorem C2_forceMountedStaleMeasurement_counterexample :
    (deliverContentLayout true { x := 0, y := 0, width := 50, height := 40 }
        (Root.close initialState)).contentLayout ≠ none := by
  simp [deliverContentLayout, Content.mounts, Content.onLayout, Root.close,
    initialState]

/-- Claim C2 (amended, confirmed): for content that is not force-mounted (the
default), the content component is unmounted once the session closes, so a
layout measurement delivered after `close()` is discarded: the session state is
unchanged and `contentLayout` stays null. -/
theorem C2_staleMeasurementDiscarded (rect : LayoutRectangle) (st : SessionState) :
    deliverContentLayout false rect (Root.close st) = Root.close st ∧
      (deliverContentLayout false rect (Root.close st)).contentLayout = none := by
  simp [deliverContentLayout, Content.mounts, Root.close]

/-- Claim C4 (counterexample): with `closeOnPress` (the default), at a concrete
open session the `Item` selection callback does not observe the session still
open with a non-null anchor — `close()` has already run. -/
theorem C4_selectSeesOpen_counterexample :
    ¬ ((Item.stateSeenByOnSelect true
          { isOpen := true
            pressPosition := some { pageX := 5, pageY := 6, width := 0, height := 0 }
            contentLayout := none }).isOpen = true ∧
        (Item.stateSeenByOnSelect true
          { isOpen := true
            pressPosition := some { pageX := 5, pageY := 6, width := 0, height := 0 }
            contentLayout := none }).pressPosition ≠ none) := by
  simp [Item.stateSeenByOnSelect, Item.onPressState, Root.close]

/-- Claim C4 (amended, confirmed): in both `Item.onPress` and
`CheckboxItem.onPress` with `closeOnPress`, `close()` runs before the selection
callback, so `onSelect` observes the already-closed session (open false, anchor
null); the call trace places the close strictly before the select. -/
theorem C4_closeRunsBeforeSelect (st : SessionState) (checked : Bool) :
    Item.stateSeenByOnSelect true st = Root.close st ∧
      CheckboxItem.stateSeenByOnSelect true checked st = Root.close st ∧
      (Item.stateSeenByOnSelect true st).isOpen = false ∧
      (Item.stateSeenByOnSelect true st).pressPosition = none ∧
      Item.onPressTrace true true false = [ItemEvent.closeMenu, ItemEvent.select] := by
  simp [Item.stateSeenByOnSelect, Item.onPressState,
    CheckboxItem.stateSeenByOnSelect, CheckboxItem.onPress, Root.close,
    Item.onPressTrace]

/-- Claim C5 (counterexample): a non-disabled long-press on an already-open
session (reached by a first long-press from the initial state) does not leave
the menu open — `onOpenChange(!open)` toggles it closed, so the claimed
post-state (anchor = p and open = true) fails. -/
theorem C5_longPressWhileOpen_counterexample :
    ¬ ((Trigger.onLongPress false { pageX := 7, pageY := 8 }
          (run initialState [Op.longPress false { pageX := 5, pageY := 6 }])).pressPosition =
          some { pageX := 7, pageY := 8, width := 0, height := 0 } ∧
        (Trigger.onLongPress false { pageX := 7, pageY := 8 }
          (run initialState [Op.longPress false { pageX := 5, pageY := 6 }])).isOpen = true) := by
  simp [run, step, Trigger.onLongPress, initialState]

/-- Claim C5 (amended, confirmed): a non-disabled long-press at point p always
replaces the anchor wholesale with p (width and height 0) and toggles the open
flag: it opens the menu exactly when the session was closed, while a long-press
on an already-open session records p but closes the menu. -/
theorem C5_longPressTogglesWithNewAnchor (ev : TouchPoint) (st : SessionState) :
    (Trigger.onLongPress false ev st).pressPosition =
        some { pageX := ev.pageX, pageY := ev.pageY, width := 0, height := 0 } ∧
      (Trigger.onLongPress false ev st).isOpen = !st.isOpen := by
  simp [Trigger.onLongPress]

/-- Claim C6 (counterexample): `Portal` tests `pressPosition` before the
force-mount flag, so with `forceMount = true` and a closed session (null press
position, open false) the portal subtree is still not mounted. -/
theorem C6_portalForceMount_counterexample :
    Portal.mounts true none false = false :=
  rfl

/-- Claim C6 (amended, confirmed): `forceMount = true` bypasses the open-gated
(or selected-state-gated) render suppression of `Content`, `Overlay`,
`SubContent` and `ItemIndicator` — each mounts whatever the gate state — while
for `Portal` force-mounting bypasses only the open gate: its mountedness is
independent of the open flag, but a null `pressPosition` still suppresses the
subtree. -/
theorem C6_forceMountBypassesOpenGate :
    (∀ isOpen, Content.mounts true isOpen = true) ∧
      (∀ isOpen, Overlay.mounts true isOpen = true) ∧
      (∀ isOpen, SubContent.mounts true isOpen = true) ∧
      (∀ itemValue checked value,
        ItemIndicator.mounts true itemValue checked value = true) ∧
      (∀ pressPosition o o',
        Portal.mounts true pressPosition o = Portal.mounts true pressPosition o') ∧
      (∀ p isOpen, Portal.mounts true (some p) isOpen = true) := by
  refine ⟨fun _ => rfl, fun _ => rfl, fun _ => rfl, fun _ _ _ => rfl, ?_, fun _ _ => rfl⟩
  intro pressPosition o o'
  cases pressPosition <;> rfl

/-- Claim C7 (confirmed against the spec-modelled engine): for anchor
(100, 500, 0x0), content 200x150, viewport 400x600, side bottom, align start,
side offset 4, zero insets and collision avoidance on, the bottom placement's
bottom edge 504 + 150 = 654 exceeds the viewport height 600, and the engine
flips to the top side with top = 346 and left = 100. -/
theorem C7_flipScenario :
    (600 : ℚ) <
        sideCandidate Side.bottom
          { pageX := 100, pageY := 500, width := 0, height := 0 }
          { width := 200, height := 150 } 4 + 150 ∧
      computePlacement { pageX := 100, pageY := 500, width := 0, height := 0 }
          { width := 200, height := 150 } Side.bottom Align.start 4 0 true
          { top := 0, bottom := 0, left := 0, right := 0 } 400 600 =
        { side := Side.top, top := 346, left := 100, maxWidth := 400 } := by
  constructor
  · norm_num [sideCandidate]
  · norm_num [computePlacement, sideCandidate, alignCandidate, clampTo]

/-- Each single step preserves the closed-session invariant, provided an
effective trigger activation only fires while the session is closed. -/
theorem step_preserves_closedCleared (st : SessionState) (op : Op)
    (hI : closedCleared st) (hAct : op.togglesOpen = true → st.isOpen = false) :
    closedCleared (step st op) := by
  obtain ⟨o, pp, cl⟩ := st
  unfold closedCleared at hI ⊢
  cases op with
  | longPress d ev =>
    cases d with
    | false =>
      cases o with
      | false =>
        intro h
        simp [step, Trigger.onLongPress] at h
      | true =>
        have h := hAct (by simp [Op.togglesOpen])
        simp at h
    | true =>
      simpa [step, Trigger.onLongPress] using hI
  | accessibilityAct d name =>
    cases d with
    | false =>
      by_cases hname : name = "longpress"
      · cases o with
        | false =>
          intro h
          simp [step, Trigger.onAccessibilityAction, hname] at h
        | true =>
          have h := hAct (by simp [Op.togglesOpen, hname])
          simp at h
      · simpa [step, Trigger.onAccessibilityAction, hname] using hI
    | true =>
      simpa [step, Trigger.onAccessibilityAction] using hI
  | overlayPress c =>
    cases c with
    | false => simpa [step, Overlay.onPress] using hI
    | true => simp [step, Overlay.onPress, Root.close]
  | itemPress c =>
    cases c with
    | false => simpa [step, Item.onPressState] using hI
    | true => simp [step, Item.onPressState, Root.close]
  | backPress =>
    simp [step, Content.onHardwareBackPress, Root.close]
  | layoutMeasured rect =>
    cases o with
    | false =>
      simpa [step, deliverContentLayout, Content.mounts] using hI
    | true =>
      intro h
      simp [step, deliverContentLayout, Content.mounts, Content.onLayout] at h
  | contentUnmount =>
    intro h
    simp [step, Content.unmountCleanup] at h ⊢
    exact (hI h).1

/-- Claim C1 (amended, confirmed): the invariant
`open = false → pressPosition = null ∧ contentLayout = null` holds after every
operation sequence in which each effective trigger activation (non-disabled
long-press or accessibility `'longpress'`) is delivered while the session is
closed at that moment; an activation on an already-open session instead toggles
the menu closed while recording a fresh press position, which is the one way
the raw invariant fails. -/
theorem C1_closedSessionInvariant (st : SessionState) (ops : List Op)
    (hI : closedCleared st) (hAct : activationsClosed st ops = true) :
    closedCleared (run st ops) := by
  induction ops generalizing st with
  | nil => exact hI
  | cons op ops ih =>
    rw [activationsClosed, Bool.and_eq_true] at hAct
    refine ih (step st op) (step_preserves_closedCleared st op hI ?_) hAct.2
    intro ht
    have h1 := hAct.1
    rw [ht] at h1
    simpa using h1

/-- Witness for the amended claim C1 at a concrete run: one activation from the
closed initial state, then an overlay press that closes the menu. -/
theorem C1_closedSessionInvariant_witness :
    activationsClosed initialState
        [Op.longPress false { pageX := 1, pageY := 2 }, Op.overlayPress true] = true ∧
      closedCleared (run initialState
        [Op.longPress false { pageX := 1, pageY := 2 }, Op.overlayPress true]) :=
  ⟨by decide, C1_closedSessionInvariant initialState
    [Op.longPress false { pageX := 1, pageY := 2 }, Op.overlayPress true]
    (by decide) (by decide)⟩

/-- Claim C1 (counterexample): starting from the closed initial session, two
successive non-disabled long-presses leave the session with `open = false` and
a non-null captured press position — the raw invariant fails. -/
theorem C1_invariant_counterexample :
    ¬ closedCleared (run initialState
        [Op.longPress false { pageX := 10, pageY := 20 },
          Op.longPress false { pageX := 30, pageY := 40 }]) := by
  simp [closedCleared, run, step, initialState, Trigger.onLongPress]
